import Mathlib

/-!
A shallow embedding of the flatten-dict micro-benchmark repository
(`main.py`, `compare_loops.py`, `test.py`) and proofs about its
specification.

Python dictionaries are modelled as insertion-ordered association lists
with unique keys.  The nesting depth of every value the program builds is
at most two (a player dictionary whose values are scalars plus one nested
`match_stats` dictionary of scalars), so values are split into `Scalar`
(leaf values) and `PyVal` (a scalar or a one-level nested dictionary of
scalars).  Machine floats produced by the generator
(`round(0.85 + (i % 15)/100, 2)`) are exact two-decimal quantities passed
through unchanged by every candidate, so they are modelled exactly by
their integer number of hundredths (`Scalar.float2`).
-/

/-- Leaf (non-dictionary) Python values appearing in this program:
integers, strings, booleans, the two-decimal floats of `tackle_success`
(`float2 n` models the exact value `n / 100`, the only floats the
generator produces), Python `None` (used as the default by
`manual_flatten`) and pandas `NaN` (used by `json_normalize` for a
missing column). -/
inductive Scalar where
  | int : Int → Scalar
  | str : String → Scalar
  | bool : Bool → Scalar
  | float2 : Int → Scalar
  | none : Scalar
  | nan : Scalar
deriving DecidableEq, Repr

/-- A flat Python dictionary of scalar values (e.g. `match_stats`),
as an insertion-ordered association list. -/
abbrev StatsDict := List (String × Scalar)

/-- A Python value at the top level of a player dictionary: a scalar or
one nested dictionary of scalars. -/
inductive PyVal where
  | sc : Scalar → PyVal
  | dict : StatsDict → PyVal
deriving DecidableEq, Repr

/-- A Python dictionary whose values are `PyVal`s (player dictionaries
and flattened rows), as an insertion-ordered association list. -/
abbrev Dict := List (String × PyVal)

/-- `d[k]` lookup returning the first binding of `k` (Python dictionaries
have unique keys, so first = only). -/
def aget {α : Type} (d : List (String × α)) (k : String) : Option α :=
  match d with
  | [] => Option.none
  | (k', v) :: rest => if k' = k then some v else aget rest k

/-- Python `k in d`. -/
def acontains {α : Type} (d : List (String × α)) (k : String) : Bool :=
  (aget d k).isSome

/-- Python `d[k] = v`: replace the value of an existing key in place,
otherwise append the new binding at the end (insertion order). -/
def aset {α : Type} (d : List (String × α)) (k : String) (v : α) : List (String × α) :=
  match d with
  | [] => [(k, v)]
  | (k', v') :: rest => if k' = k then (k', v) :: rest else (k', v') :: aset rest k v

/-- Python `d.update(u)`: `d[k] = v` for each binding of `u` in order. -/
def aupdate {α : Type} (d u : List (String × α)) : List (String × α) :=
  u.foldl (fun acc p => aset acc p.1 p.2) d

/-- The removal effect of Python `d.pop(k, default)` on `d` itself. -/
def apop {α : Type} (d : List (String × α)) (k : String) : List (String × α) :=
  d.filter (fun p => p.1 != k)

/-- The home side of the generated match record: `team_id`, `team_name`
and the `teamsheet` list of player dictionaries. -/
structure HomeSide where
  team_id : Int
  team_name : String
  teamsheet : List Dict
deriving DecidableEq, Repr

/-- The nested record returned by `generate_sample_data`: scalar fields
`match_id`, `date`, `venue`, the `home` side and the (empty) `away`
dictionary. -/
structure MatchRecord where
  match_id : Int
  date : String
  venue : String
  home : HomeSide
  away : Dict
deriving DecidableEq, Repr

/-- The 26-entry `match_stats` dictionary built by `generate_sample_data`
for player ordinal `i` (main.py lines 34-61).  `round(0.85 + (i % 15)/100, 2)`
is the exact two-decimal value `(85 + i % 15)/100`, written `float2 (85 + i % 15)`. -/
def match_stats_of (i : Int) : StatsDict :=
  [("points", Scalar.int ((i % 3) * 5)),
   ("tries", Scalar.int (i % 3)),
   ("turnovers_conceded", Scalar.int (i % 4)),
   ("offload", Scalar.int (i % 5)),
   ("dominant_tackles", Scalar.int (i % 10)),
   ("missed_tackles", Scalar.int (i % 5)),
   ("tackle_success", Scalar.float2 (85 + i % 15)),
   ("tackle_try_saver", Scalar.int (i % 2)),
   ("tackle_turnover", Scalar.int (i % 3)),
   ("penalty_goals", Scalar.int (i % 2)),
   ("missed_penalty_goals", Scalar.int (i % 2)),
   ("conversion_goals", Scalar.int (i % 4)),
   ("missed_conversion_goals", Scalar.int (i % 4)),
   ("drop_goals_converted", Scalar.int (i % 1)),
   ("drop_goal_missed", Scalar.int (i % 2)),
   ("runs", Scalar.int (i % 20 + 5)),
   ("metres", Scalar.int ((i % 20 + 5) * 8)),
   ("clean_breaks", Scalar.int (i % 4)),
   ("defenders_beaten", Scalar.int (i % 6)),
   ("try_assists", Scalar.int (i % 2)),
   ("passes", Scalar.int (i % 30 + 10)),
   ("bad_passes", Scalar.int (i % 5)),
   ("rucks_won", Scalar.int (i % 15)),
   ("rucks_lost", Scalar.int (i % 3)),
   ("lineouts_won", Scalar.int (i % 4)),
   ("penalties_conceded", Scalar.int (i % 3))]

/-- The `if 1 <= i <= 8 / elif 9 <= i <= 15 / else` chain of
`generate_sample_data` (main.py lines 20-25). -/
def position_of (i : Int) : String :=
  if 1 ≤ i ∧ i ≤ 8 then "Forward"
  else if 9 ≤ i ∧ i ≤ 15 then "Back"
  else "Substitute"

/-- The player dictionary built for ordinal `i` (main.py lines 29-62). -/
def player_of (i : Int) : Dict :=
  [("player_id", PyVal.sc (Scalar.int i)),
   ("name", PyVal.sc (Scalar.str ("Player " ++ toString i))),
   ("position", PyVal.sc (Scalar.str (position_of i))),
   ("substitute", PyVal.sc (Scalar.bool (decide (i > 15)))),
   ("match_stats", PyVal.dict (match_stats_of i))]

/-- Python `range(1, n + 1)`: the integers `1, ..., n` (empty when `n ≤ 0`). -/
def pyRange1 (n : Int) : List Int :=
  (List.range n.toNat).map (fun k => Int.ofNat k + 1)

/-- `generate_sample_data` from main.py (lines 13-75). -/
def generate_sample_data (num_players : Int) : MatchRecord :=
  { match_id := 12345,
    date := "2025-07-27",
    venue := "Small Mem Stadium",
    home := { team_id := 101,
              team_name := "The Bloody Ingestors",
              teamsheet := (pyRange1 num_players).map player_of },
    away := [] }

/-- `player.get('match_stats', {})` (and the value part of
`player.pop('match_stats', {})`): the nested stats dictionary, or the
empty dictionary when the key is absent.  Every input considered by the
claims stores a dictionary under `"match_stats"` when the key is present
at all (a scalar there would raise in Python and is mapped to the empty
dictionary only to keep the model total). -/
def msOrEmpty (player : Dict) : StatsDict :=
  match aget player "match_stats" with
  | some (PyVal.dict s) => s
  | some (PyVal.sc _) => []
  | Option.none => []

/-- `player.get(k)` with default `None`. -/
def pget (player : Dict) (k : String) : PyVal :=
  (aget player k).getD (PyVal.sc Scalar.none)

/-- `stats.get(k, None)` wrapped back into a row value. -/
def sgetN (s : StatsDict) (k : String) : PyVal :=
  match aget s k with
  | some v => PyVal.sc v
  | Option.none => PyVal.sc Scalar.none

/-- The row dictionary built by `manual_flatten` for one player
(main.py lines 118-150): the four scalar fields via `player.get`, then
each of the 26 stat keys via `player.get('match_stats', {}).get(k, None)`. -/
def manual_row (player : Dict) : Dict :=
  [("player_id", pget player "player_id"),
   ("name", pget player "name"),
   ("position", pget player "position"),
   ("substitute", pget player "substitute"),
   ("points", sgetN (msOrEmpty player) "points"),
   ("tries", sgetN (msOrEmpty player) "tries"),
   ("turnovers_conceded", sgetN (msOrEmpty player) "turnovers_conceded"),
   ("offload", sgetN (msOrEmpty player) "offload"),
   ("dominant_tackles", sgetN (msOrEmpty player) "dominant_tackles"),
   ("missed_tackles", sgetN (msOrEmpty player) "missed_tackles"),
   ("tackle_success", sgetN (msOrEmpty player) "tackle_success"),
   ("tackle_try_saver", sgetN (msOrEmpty player) "tackle_try_saver"),
   ("tackle_turnover", sgetN (msOrEmpty player) "tackle_turnover"),
   ("penalty_goals", sgetN (msOrEmpty player) "penalty_goals"),
   ("missed_penalty_goals", sgetN (msOrEmpty player) "missed_penalty_goals"),
   ("conversion_goals", sgetN (msOrEmpty player) "conversion_goals"),
   ("missed_conversion_goals", sgetN (msOrEmpty player) "missed_conversion_goals"),
   ("drop_goals_converted", sgetN (msOrEmpty player) "drop_goals_converted"),
   ("drop_goal_missed", sgetN (msOrEmpty player) "drop_goal_missed"),
   ("runs", sgetN (msOrEmpty player) "runs"),
   ("metres", sgetN (msOrEmpty player) "metres"),
   ("clean_breaks", sgetN (msOrEmpty player) "clean_breaks"),
   ("defenders_beaten", sgetN (msOrEmpty player) "defenders_beaten"),
   ("try_assists", sgetN (msOrEmpty player) "try_assists"),
   ("passes", sgetN (msOrEmpty player) "passes"),
   ("bad_passes", sgetN (msOrEmpty player) "bad_passes"),
   ("rucks_won", sgetN (msOrEmpty player) "rucks_won"),
   ("rucks_lost", sgetN (msOrEmpty player) "rucks_lost"),
   ("lineouts_won", sgetN (msOrEmpty player) "lineouts_won"),
   ("penalties_conceded", sgetN (msOrEmpty player) "penalties_conceded")]

/-- `manual_flatten` from main.py (lines 110-154): a pure list
comprehension over `match_details['home']['teamsheet']`. -/
def manual_flatten (match_details : MatchRecord) : List Dict :=
  match_details.home.teamsheet.map manual_row

/-- The row of `unpack_operator_flatten` for one player (main.py lines
166-172): a dictionary literal of the four scalar fields merged (`**`)
with the stats dictionary, later keys overwriting earlier ones. -/
def unpack_row (player : Dict) : Dict :=
  aupdate
    [("player_id", pget player "player_id"),
     ("name", pget player "name"),
     ("position", pget player "position"),
     ("substitute", pget player "substitute")]
    ((msOrEmpty player).map (fun p => (p.1, PyVal.sc p.2)))

/-- `unpack_operator_flatten` from main.py (lines 158-176). -/
def unpack_operator_flatten (match_details : MatchRecord) : List Dict :=
  match_details.home.teamsheet.map unpack_row

/-- `flatten_gen` from `generator_flatten` (main.py lines 187-193),
applied to the `match_stats` dictionaries of this program: every value is
a scalar (never a `MutableMapping`), so each item yields
`(parent_key + sep + k if parent_key else k, v)`. -/
def flatten_gen (d : StatsDict) (parent_key sep : String) : StatsDict :=
  d.map (fun p => (if parent_key = "" then p.1 else parent_key ++ sep ++ p.1, p.2))

/-- `flatten_dict` from `generator_flatten` (main.py lines 196-198):
`dict(flatten_gen(d, '', sep))` (the stats keys are unique, so building
the dictionary keeps the pairs as generated). -/
def flatten_dict (d : StatsDict) (sep : String) : StatsDict :=
  flatten_gen d "" sep

/-- The comprehension guard of `generator_flatten` (main.py line 206):
`'match_stats' in player and isinstance(player['match_stats'], MutableMapping)`. -/
def has_stats_dict (player : Dict) : Bool :=
  match aget player "match_stats" with
  | some (PyVal.dict _) => true
  | _ => false

/-- The row of `generator_flatten` for one retained player (main.py
lines 203-204): the non-`match_stats` items merged with the flattened
stats. -/
def generator_row (player : Dict) : Dict :=
  aupdate
    (player.filter (fun p => p.1 != "match_stats"))
    ((flatten_dict (msOrEmpty player) "_").map (fun p => (p.1, PyVal.sc p.2)))

/-- `generator_flatten` from main.py (lines 180-209): the comprehension
keeps only players whose `match_stats` is present and a mapping. -/
def generator_flatten (match_details : MatchRecord) : List Dict :=
  (match_details.home.teamsheet.filter has_stats_dict).map generator_row

/-- Whether a `PyVal` is a nested dictionary. -/
def isDictVal : PyVal → Bool
  | PyVal.dict _ => true
  | PyVal.sc _ => false

/-- Models pandas `nested_to_record` (the per-record step of
`pd.json_normalize`) for records whose values are scalars or one level of
nested dictionary: scalar items keep their order, and each nested
dictionary is removed and its items appended at the end with keys joined
by `sep`. -/
def nested_to_record (d : Dict) (sep : String) : Dict :=
  d.filter (fun p => !isDictVal p.2) ++
  d.foldl (fun acc p =>
    match p.2 with
    | PyVal.dict s => acc ++ s.map (fun q => (p.1 ++ sep ++ q.1, PyVal.sc q.2))
    | PyVal.sc _ => acc) []

/-- The column index of the normalized frame: the union of the rows'
keys in first-appearance order. -/
def union_cols (rows : List Dict) : List String :=
  rows.foldl (fun acc r => acc ++ (r.map Prod.fst).filter (fun k => !acc.contains k)) []

/-- Models `pd.json_normalize(records, sep)` followed by
`.to_dict(orient='records')`: flatten each record, take the union of the
columns, and read each row back filling absent cells with `NaN`. -/
def json_normalize (records : List Dict) (sep : String) : List Dict :=
  let flat := records.map (fun r => nested_to_record r sep)
  let cols := union_cols flat
  flat.map (fun r => cols.map (fun c => (c, (aget r c).getD (PyVal.sc Scalar.nan))))

/-- `s.isEmpty`-free prefix test on character lists (used by `pyReplace`). -/
def isPre (pat s : List Char) : Bool :=
  match pat, s with
  | [], _ => true
  | _ :: _, [] => false
  | p :: ps, c :: cs => p == c && isPre ps cs

/-- Fuel-indexed worker for `pyReplace`; the fuel is the length of the
scanned list, and every step consumes at least one character. -/
def replaceAux (pat rep : List Char) : Nat → List Char → List Char
  | 0, s => s
  | _ + 1, [] => []
  | fuel + 1, c :: rest =>
      if isPre pat (c :: rest) && !pat.isEmpty then
        rep ++ replaceAux pat rep fuel (rest.drop (pat.length - 1))
      else c :: replaceAux pat rep fuel rest

/-- Python `s.replace(pat, rep)`: replace every (left-to-right,
non-overlapping) occurrence of `pat` in `s` by `rep`. -/
def pyReplace (s pat rep : String) : String :=
  ⟨replaceAux pat.data rep.data s.data.length s.data⟩

/-- `pandas_flatten` from main.py (lines 216-223): `pd.json_normalize`
with separator `_`, then
`df.rename(columns=lambda x: x.replace('match_stats_', ''))`, then
`df.to_dict(orient='records')`. -/
def pandas_flatten (match_details : MatchRecord) : List Dict :=
  (json_normalize match_details.home.teamsheet "_").map
    (fun r => r.map (fun p => (pyReplace p.1 "match_stats_" "", p.2)))

/-- Models `flatdict.FlatDict(stats, delimiter='_')` for the flat
scalar-valued dictionaries this program feeds it: with no nesting there
is nothing to join, so the key-value pairs are unchanged. -/
def FlatDictLib (stats : StatsDict) (delimiter : String) : StatsDict :=
  let _ := delimiter
  stats

/-- The per-player effect of `flatdict_flatten` in main.py (line 232):
`player.update(FlatDict(player.pop('match_stats', {}), delimiter='_')) or player`.
The pop removes the nested dictionary from the player and the update
merges the stat pairs into the same player object; the expression
evaluates to the mutated player itself. -/
def flatdict_player (player : Dict) : Dict :=
  aupdate (apop player "match_stats")
    ((FlatDictLib (msOrEmpty player) "_").map (fun p => (p.1, PyVal.sc p.2)))

/-- Replace the teamsheet of a record (used to express the post-call
state of the candidates that mutate their input players in place). -/
def withTeamsheet (md : MatchRecord) (ts : List Dict) : MatchRecord :=
  { md with home := { md.home with teamsheet := ts } }

/-- `flatdict_flatten` from main.py (lines 227-236).  The returned rows
alias the mutated players of the input teamsheet, so the result is the
pair (returned row list, post-call state of the input record). -/
def flatdict_flatten (match_details : MatchRecord) : List Dict × MatchRecord :=
  let newPlayers := match_details.home.teamsheet.map flatdict_player
  (newPlayers, withTeamsheet match_details newPlayers)

/-- The per-player effect of the `dlt` transformer in `dlt_flatten`
(main.py lines 259-265): `if "match_stats" in _player:` pop the stats and
`update` the player with them, then yield the (mutated) player. -/
def dlt_player (player : Dict) : Dict :=
  if acontains player "match_stats" then
    aupdate (apop player "match_stats")
      ((msOrEmpty player).map (fun p => (p.1, PyVal.sc p.2)))
  else player

/-- `dlt_flatten` from main.py (lines 241-276).  The dlt resource yields
the teamsheet list of the input record itself, the transformer mutates
each player in place as in `dlt_player`, and `list(pipeline)` collects
the transformed players; the result is the pair (returned row list,
post-call state of the input record). -/
def dlt_flatten (match_details : MatchRecord) : List Dict × MatchRecord :=
  let newPlayers := match_details.home.teamsheet.map dlt_player
  (newPlayers, withTeamsheet match_details newPlayers)

namespace CompareLoops

/-- The loop body of `flatdict_flatten` in compare_loops.py (lines
23-27): `stats = player.pop('match_stats', {})`,
`flat_stats = FlatDict(stats, delimiter='_')`, `player.update(flat_stats)`,
`player_stats.append(player)`. -/
def flatdict_player (player : Dict) : Dict :=
  aupdate (apop player "match_stats")
    ((FlatDictLib (msOrEmpty player) "_").map (fun p => (p.1, PyVal.sc p.2)))

/-- `flatdict_flatten` from compare_loops.py (lines 17-29): the for-loop
variant; the appended rows alias the mutated players of the input
teamsheet. -/
def flatdict_flatten (match_details : MatchRecord) : List Dict × MatchRecord :=
  let newPlayers := match_details.home.teamsheet.map CompareLoops.flatdict_player
  (newPlayers, withTeamsheet match_details newPlayers)

end CompareLoops

/-- One entry of the global `results_list` (main.py lines 93-99):
`function` (the wrapped function's `__name__`), `time_in_s` and
`memory_in_mb`.  The clock and memory readings are real-time quantities;
they are modelled as rationals supplied by a measurement oracle. -/
structure BenchmarkResult where
  function : String
  time_in_s : Rat
  memory_in_mb : Rat
deriving DecidableEq, Repr

/-- The `benchmark` decorator from main.py (lines 82-102), applied to a
function `func` named `funcName` (its `__name__`): run the wrapped call,
obtain the elapsed-time and peak-memory reading for this invocation from
the oracle, append exactly one tagged `BenchmarkResult` to the results
collection, and return the wrapped call's result unchanged. -/
def benchmark {α β : Type} (funcName : String) (func : α → β) (reading : Rat × Rat)
    (a : α) (results : List BenchmarkResult) : β × List BenchmarkResult :=
  let result := func a
  (result, results ++ [{ function := funcName, time_in_s := reading.1,
                         memory_in_mb := reading.2 }])

/-- The `results_list = []` reset at the start of `run_and_compare`
(main.py line 286): whatever the collection held, it becomes empty. -/
def reset_results (_oldResults : List BenchmarkResult) : List BenchmarkResult :=
  []

/-- Python runtime errors reached by this program. -/
inductive PyError where
  | nameError : String → PyError
deriving DecidableEq, Repr

/-- The names bound at module level in main.py when `run_and_compare`
runs: the imports (`import copy`, `import time`, `import tracemalloc`,
`from functools import wraps`, `import json`, `import gc`, `import dlt`,
`import pandas as pd`, `from flatdict import FlatDict`) and the module's
own definitions.  `cp` is not among them: the module imports `copy`
under its own name, never as `cp`. -/
def mainGlobals : List String :=
  ["copy", "time", "tracemalloc", "wraps", "json", "gc", "dlt", "pd", "FlatDict",
   "generate_sample_data", "results_list", "benchmark", "manual_flatten",
   "unpack_operator_flatten", "generator_flatten", "pandas_flatten",
   "flatdict_flatten", "dlt_flatten", "run_and_compare"]

/-- Evaluating a bare name: a `NameError` when the name is unbound. -/
def lookupGlobal (name : String) : Except PyError Unit :=
  if mainGlobals.contains name then Except.ok () else Except.error (PyError.nameError name)

/-- `copy.deepcopy` on a `MatchRecord`: a structurally identical,
independent copy (the identity in a model of values). -/
def deepcopy (md : MatchRecord) : MatchRecord :=
  md

/-- `run_and_compare` from main.py (lines 280-315): reset `results_list`
to `[]`, then run each candidate on `cp.deepcopy(data)`.  The first such
expression evaluates the name `cp`, which is unbound in main.py (the
module does `import copy`, not `import copy as cp`), so the call raises
`NameError` before the first benchmarked invocation; the rest of the body
is unreachable and is kept here in the shape the source intends.  The
result is the pair (outcome, final state of `results_list`). -/
def run_and_compare (data : MatchRecord) (readings : String → Rat × Rat) :
    Except PyError (List BenchmarkResult) × List BenchmarkResult :=
  let results := reset_results []
  match lookupGlobal "cp" with
  | Except.error e => (Except.error e, results)
  | Except.ok _ =>
    let (_, results) := benchmark "pandas_flatten" pandas_flatten
      (readings "pandas_flatten") (deepcopy data) results
    let (_, results) := benchmark "manual_flatten" manual_flatten
      (readings "manual_flatten") (deepcopy data) results
    let (_, results) := benchmark "generator_flatten" generator_flatten
      (readings "generator_flatten") (deepcopy data) results
    let (_, results) := benchmark "unpack_operator_flatten" unpack_operator_flatten
      (readings "unpack_operator_flatten") (deepcopy data) results
    let (_, results) := benchmark "flatdict_flatten" (fun md => (flatdict_flatten md).1)
      (readings "flatdict_flatten") (deepcopy data) results
    let (_, results) := benchmark "dlt_flatten" (fun md => (dlt_flatten md).1)
      (readings "dlt_flatten") (deepcopy data) results
    (Except.ok results, results)

/-- The sweep of the `__main__` block of main.py (lines 319-349),
parametrised by the list of player counts: for each count, generate the
data, call `run_and_compare`, tag each of its rows with the count
(`results_df_for_num["num_players"] = num`), and concatenate the per-size
tables (`pd.concat`).  An exception in any sweep aborts the whole run. -/
def run_sweep (player_counts : List Int) (readings : String → Rat × Rat) :
    Except PyError (List (Int × BenchmarkResult)) :=
  match player_counts with
  | [] => Except.ok []
  | num :: rest =>
    match (run_and_compare (generate_sample_data num) readings).1 with
    | Except.error e => Except.error e
    | Except.ok res =>
      match run_sweep rest readings with
      | Except.error e => Except.error e
      | Except.ok more => Except.ok (res.map (fun r => (num, r)) ++ more)

/-! ## Helper lemmas: every candidate's rows on generated data equal manual_flatten's -/

def pandasCols : List String :=
  ["player_id", "name", "position", "substitute",
   "match_stats_points", "match_stats_tries", "match_stats_turnovers_conceded",
   "match_stats_offload", "match_stats_dominant_tackles", "match_stats_missed_tackles",
   "match_stats_tackle_success", "match_stats_tackle_try_saver", "match_stats_tackle_turnover",
   "match_stats_penalty_goals", "match_stats_missed_penalty_goals", "match_stats_conversion_goals",
   "match_stats_missed_conversion_goals", "match_stats_drop_goals_converted",
   "match_stats_drop_goal_missed", "match_stats_runs", "match_stats_metres",
   "match_stats_clean_breaks", "match_stats_defenders_beaten", "match_stats_try_assists",
   "match_stats_passes", "match_stats_bad_passes", "match_stats_rucks_won",
   "match_stats_rucks_lost", "match_stats_lineouts_won", "match_stats_penalties_conceded"]

/-- The 26 stat keys of a generated `match_stats` dictionary, in
generation order. -/
def stat_keys_list : List String :=
  ["points", "tries", "turnovers_conceded", "offload", "dominant_tackles", "missed_tackles",
   "tackle_success", "tackle_try_saver", "tackle_turnover", "penalty_goals",
   "missed_penalty_goals", "conversion_goals", "missed_conversion_goals",
   "drop_goals_converted", "drop_goal_missed", "runs", "metres", "clean_breaks",
   "defenders_beaten", "try_assists", "passes", "bad_passes", "rucks_won", "rucks_lost",
   "lineouts_won", "penalties_conceded"]

/-- Two rows hold the same set of (key, value) pairs (key order within a
row irrelevant). -/
def rowSetEq (r₁ r₂ : Dict) : Prop :=
  ∀ kv : String × PyVal, kv ∈ r₁ ↔ kv ∈ r₂

/-- Two row lists agree as the spec requires: same number of rows, the
same player identities row by row, and per row the same set of
(key, value) pairs. -/
def sameRowSets (rs₁ rs₂ : List Dict) : Prop :=
  rs₁.length = rs₂.length ∧
  rs₁.map (fun r => aget r "player_id") = rs₂.map (fun r => aget r "player_id") ∧
  ∀ j : Nat, rowSetEq (rs₁.getD j []) (rs₂.getD j [])

/-- A player dictionary with the four standard scalar fields and no
`match_stats` key (the malformed input of the error-handling claims). -/
def scalarPlayer (a b c d : Scalar) : Dict :=
  [("player_id", PyVal.sc a), ("name", PyVal.sc b),
   ("position", PyVal.sc c), ("substitute", PyVal.sc d)]

/-- A match record whose single teamsheet entry lacks `match_stats`. -/
def scalarOnlyRecord (a b c d : Scalar) : MatchRecord :=
  { match_id := 12345,
    date := "2025-07-27",
    venue := "Small Mem Stadium",
    home := { team_id := 101,
              team_name := "The Bloody Ingestors",
              teamsheet := [scalarPlayer a b c d] },
    away := [] }

/-- A concrete player without `match_stats`. -/
def statlessPlayer : Dict :=
  scalarPlayer (Scalar.int 1) (Scalar.str "Player 1") (Scalar.str "Forward") (Scalar.bool false)

/-- A concrete match record whose single player lacks `match_stats`. -/
def statlessRecord : MatchRecord :=
  scalarOnlyRecord (Scalar.int 1) (Scalar.str "Player 1") (Scalar.str "Forward")
    (Scalar.bool false)

/-- The 26 `None`-valued stat entries `manual_flatten` emits for a player
whose `match_stats` is missing. -/
def noneStats : Dict :=
  stat_keys_list.map (fun k => (k, PyVal.sc Scalar.none))

/-- The membership conjunction of the spec's `num_players = 3` scenario:
the row holds `points: 5`, `player_id: 1`, `position: Forward` and
`substitute: false`. -/
def rowHasPlayerOne (row : Dict) : Prop :=
  ("points", PyVal.sc (Scalar.int 5)) ∈ row ∧
  ("player_id", PyVal.sc (Scalar.int 1)) ∈ row ∧
  ("position", PyVal.sc (Scalar.str "Forward")) ∈ row ∧
  ("substitute", PyVal.sc (Scalar.bool false)) ∈ row

/-- The record with an empty teamsheet that `generate_sample_data`
returns for non-positive player counts. -/
def emptyTeamsheetRecord : MatchRecord :=
  { match_id := 12345,
    date := "2025-07-27",
    venue := "Small Mem Stadium",
    home := { team_id := 101,
              team_name := "The Bloody Ingestors",
              teamsheet := [] },
    away := [] }

theorem pyRange1_getElem (n : Int) (j : Nat) (h : j < (pyRange1 n).length) :
    (pyRange1 n)[j] = (j : Int) + 1 := by
  unfold pyRange1 at h ⊢
  rw [List.getElem_map, List.getElem_range]
  rfl

theorem pyRange1_length (n : Int) : (pyRange1 n).length = n.toNat := by
  unfold pyRange1
  rw [List.length_map, List.length_range]

theorem sameRowSets_of_eq {rs₁ rs₂ : List Dict} (h : rs₁ = rs₂) : sameRowSets rs₁ rs₂ := by
  subst h
  exact ⟨rfl, rfl, fun j kv => Iff.rfl⟩

theorem nested_keys (i : Int) :
    (nested_to_record (player_of i) "_").map Prod.fst = pandasCols := by
  simp [nested_to_record, player_of, match_stats_of, isDictVal, pandasCols]

theorem union_fold_const (K : List String) :
    ∀ (rs : List Dict), (∀ r ∈ rs, r.map Prod.fst = K) →
      rs.foldl (fun acc r => acc ++ (r.map Prod.fst).filter (fun k => !acc.contains k)) K = K := by
  intro rs
  induction rs with
  | nil => intro _; rfl
  | cons r rest ih =>
    intro h
    have hr : r.map Prod.fst = K := h r (List.mem_cons_self r rest)
    have hfil : K.filter (fun k => !K.contains k) = [] := by
      apply List.filter_eq_nil_iff.mpr
      intro a ha
      simp [ha]
    simp only [List.foldl_cons, hr, hfil, List.append_nil]
    exact ih (fun x hx => h x (List.mem_cons_of_mem r hx))

theorem union_cols_of_keys (rs : List Dict) (K : List String)
    (h : ∀ r ∈ rs, r.map Prod.fst = K) (hne : rs ≠ []) : union_cols rs = K := by
  match rs with
  | [] => exact absurd rfl hne
  | r :: rest =>
    have hr : r.map Prod.fst = K := h r (List.mem_cons_self r rest)
    have h0 : ([] : List String) ++ (r.map Prod.fst).filter (fun k => !([] : List String).contains k) = K := by
      simp [hr]
    unfold union_cols
    simp only [List.foldl_cons, h0]
    exact union_fold_const K rest (fun x hx => h x (List.mem_cons_of_mem r hx))

theorem proj_rename_player (i : Int) :
    (pandasCols.map (fun c => (c, (aget (nested_to_record (player_of i) "_") c).getD (PyVal.sc Scalar.nan)))).map
      (fun p => (pyReplace p.1 "match_stats_" "", p.2)) = manual_row (player_of i) := by
  simp +decide [pandasCols, nested_to_record, player_of, match_stats_of, isDictVal,
    manual_row, pget, sgetN, msOrEmpty, aget]

theorem unpack_row_player (i : Int) : unpack_row (player_of i) = manual_row (player_of i) := by
  simp [unpack_row, manual_row, player_of, aupdate, aset, aget, msOrEmpty, pget, sgetN, match_stats_of]

theorem generator_row_player (i : Int) : generator_row (player_of i) = manual_row (player_of i) := by
  simp [generator_row, manual_row, player_of, aupdate, aset, aget, msOrEmpty, pget, sgetN,
        match_stats_of, flatten_dict, flatten_gen]

theorem flatdict_player_row (i : Int) : flatdict_player (player_of i) = manual_row (player_of i) := by
  simp [flatdict_player, manual_row, player_of, aupdate, aset, aget, apop, msOrEmpty, pget, sgetN,
        match_stats_of, FlatDictLib]

theorem dlt_player_row (i : Int) : dlt_player (player_of i) = manual_row (player_of i) := by
  simp [dlt_player, manual_row, player_of, aupdate, aset, aget, acontains, apop, msOrEmpty, pget,
        sgetN, match_stats_of]

theorem has_stats_dict_player (i : Int) : has_stats_dict (player_of i) = true := by
  simp [has_stats_dict, player_of, aget]

theorem unpack_eq_manual (n : Int) :
    unpack_operator_flatten (generate_sample_data n) = manual_flatten (generate_sample_data n) := by
  simp only [unpack_operator_flatten, manual_flatten, generate_sample_data]
  apply List.map_congr_left
  intro p hp
  obtain ⟨i, _, rfl⟩ := List.mem_map.mp hp
  exact unpack_row_player i

theorem generator_eq_manual (n : Int) :
    generator_flatten (generate_sample_data n) = manual_flatten (generate_sample_data n) := by
  simp only [generator_flatten, manual_flatten, generate_sample_data]
  rw [List.filter_eq_self.mpr]
  · apply List.map_congr_left
    intro p hp
    obtain ⟨i, _, rfl⟩ := List.mem_map.mp hp
    exact generator_row_player i
  · intro p hp
    obtain ⟨i, _, rfl⟩ := List.mem_map.mp hp
    exact has_stats_dict_player i

theorem flatdict_rows_eq_manual (n : Int) :
    (flatdict_flatten (generate_sample_data n)).1 = manual_flatten (generate_sample_data n) := by
  simp only [flatdict_flatten, manual_flatten, generate_sample_data]
  apply List.map_congr_left
  intro p hp
  obtain ⟨i, _, rfl⟩ := List.mem_map.mp hp
  exact flatdict_player_row i

theorem dlt_rows_eq_manual (n : Int) :
    (dlt_flatten (generate_sample_data n)).1 = manual_flatten (generate_sample_data n) := by
  simp only [dlt_flatten, manual_flatten, generate_sample_data]
  apply List.map_congr_left
  intro p hp
  obtain ⟨i, _, rfl⟩ := List.mem_map.mp hp
  exact dlt_player_row i

theorem pandas_eq_manual (n : Int) :
    pandas_flatten (generate_sample_data n) = manual_flatten (generate_sample_data n) := by
  simp only [pandas_flatten, json_normalize, manual_flatten, generate_sample_data]
  rcases hE : pyRange1 n with _ | ⟨j, rest⟩
  · simp
  · have hflat : ∀ r ∈ ((j :: rest).map player_of).map (fun r => nested_to_record r "_"),
        r.map Prod.fst = pandasCols := by
      intro r hrm
      obtain ⟨q, hq, rfl⟩ := List.mem_map.mp hrm
      obtain ⟨i, _, rfl⟩ := List.mem_map.mp hq
      exact nested_keys i
    have hcols : union_cols (((j :: rest).map player_of).map (fun r => nested_to_record r "_")) =
        pandasCols := union_cols_of_keys _ _ hflat (by simp)
    rw [hcols, List.map_map, List.map_map]
    apply List.map_congr_left
    intro p hp
    obtain ⟨i, _, rfl⟩ := List.mem_map.mp hp
    simp only [Function.comp_apply]
    exact proj_rename_player i

/-! ## Claim theorems -/

/-- C1: For every `MatchRecord` produced by `generate_sample_data`, all
flattening candidates (`manual_flatten`, `unpack_operator_flatten`,
`generator_flatten`, `pandas_flatten`, `flatdict_flatten`, `dlt_flatten`),
each given its own copy of that record, return row sequences with the
same player identities and, per player, the same set of (key, value)
pairs (key order within a row irrelevant). -/
theorem candidates_agree_on_generated (n : Int) :
    sameRowSets (manual_flatten (generate_sample_data n))
      (unpack_operator_flatten (generate_sample_data n)) ∧
    sameRowSets (manual_flatten (generate_sample_data n))
      (generator_flatten (generate_sample_data n)) ∧
    sameRowSets (manual_flatten (generate_sample_data n))
      (pandas_flatten (generate_sample_data n)) ∧
    sameRowSets (manual_flatten (generate_sample_data n))
      ((flatdict_flatten (generate_sample_data n)).1) ∧
    sameRowSets (manual_flatten (generate_sample_data n))
      ((dlt_flatten (generate_sample_data n)).1) :=
  ⟨sameRowSets_of_eq (unpack_eq_manual n).symm,
   sameRowSets_of_eq (generator_eq_manual n).symm,
   sameRowSets_of_eq (pandas_eq_manual n).symm,
   sameRowSets_of_eq (flatdict_rows_eq_manual n).symm,
   sameRowSets_of_eq (dlt_rows_eq_manual n).symm⟩

/-- C2: For every integer `num_players ≥ 1`, `generate_sample_data`
returns a `MatchRecord` whose home teamsheet has exactly `num_players`
entries, and two calls with the same `num_players` return structurally
identical values (the generator is deterministic, using no randomness). -/
theorem generate_count_and_deterministic (n : Int) (h : 1 ≤ n) :
    (((generate_sample_data n).home.teamsheet).length : Int) = n ∧
    generate_sample_data n = generate_sample_data n := by
  refine ⟨?_, rfl⟩
  show ((((pyRange1 n).map player_of).length : Int)) = n
  rw [List.length_map, pyRange1_length]
  omega

/-- Witness for C2 at `num_players = 3`. -/
theorem generate_count_and_deterministic_witness :
    (1 : Int) ≤ 3 ∧
    ((((generate_sample_data 3).home.teamsheet).length : Int) = 3 ∧
     generate_sample_data 3 = generate_sample_data 3) :=
  ⟨by decide, generate_count_and_deterministic 3 (by decide)⟩

/-- C3: For every player ordinal `i = j + 1` (1-indexed) in a generated
`MatchRecord`: if `1 ≤ i ≤ 8` then position = Forward; if `9 ≤ i ≤ 15`
then position = Back; if `i > 15` then position = Substitute; and the
substitute flag is true if and only if `i > 15`. -/
theorem position_and_substitute_ranges (n : Int) (j : Nat)
    (hj : j < ((generate_sample_data n).home.teamsheet).length) :
    ((1 ≤ (j : Int) + 1 ∧ (j : Int) + 1 ≤ 8) →
      aget (((generate_sample_data n).home.teamsheet).getD j []) "position" =
        some (PyVal.sc (Scalar.str "Forward"))) ∧
    ((9 ≤ (j : Int) + 1 ∧ (j : Int) + 1 ≤ 15) →
      aget (((generate_sample_data n).home.teamsheet).getD j []) "position" =
        some (PyVal.sc (Scalar.str "Back"))) ∧
    (15 < (j : Int) + 1 →
      aget (((generate_sample_data n).home.teamsheet).getD j []) "position" =
        some (PyVal.sc (Scalar.str "Substitute"))) ∧
    (aget (((generate_sample_data n).home.teamsheet).getD j []) "substitute" =
        some (PyVal.sc (Scalar.bool true)) ↔ 15 < (j : Int) + 1) := by
  have hlen : j < ((pyRange1 n).map player_of).length := hj
  have hp : ((generate_sample_data n).home.teamsheet).getD j [] = player_of ((j : Int) + 1) := by
    show ((pyRange1 n).map player_of).getD j [] = player_of ((j : Int) + 1)
    rw [List.getD_eq_getElem _ _ hlen, List.getElem_map, pyRange1_getElem]
  have hpos : aget (player_of ((j : Int) + 1)) "position" =
      some (PyVal.sc (Scalar.str (position_of ((j : Int) + 1)))) := by
    simp [player_of, aget]
  have hsub : aget (player_of ((j : Int) + 1)) "substitute" =
      some (PyVal.sc (Scalar.bool (decide ((j : Int) + 1 > 15)))) := by
    simp [player_of, aget]
  rw [hp]
  refine ⟨?_, ?_, ?_, ?_⟩
  · intro h
    rw [hpos]
    simp only [position_of, if_pos h]
  · intro h
    rw [hpos]
    have h1 : ¬(1 ≤ (j : Int) + 1 ∧ (j : Int) + 1 ≤ 8) := by omega
    simp only [position_of, if_neg h1, if_pos h]
  · intro h
    rw [hpos]
    have h1 : ¬(1 ≤ (j : Int) + 1 ∧ (j : Int) + 1 ≤ 8) := by omega
    have h2 : ¬(9 ≤ (j : Int) + 1 ∧ (j : Int) + 1 ≤ 15) := by omega
    simp only [position_of, if_neg h1, if_neg h2]
  · rw [hsub]
    simp [decide_eq_true_iff]

/-- Witness for C3 at `n = 3`, `j = 0` (player 1). -/
theorem position_and_substitute_ranges_witness :
    0 < ((generate_sample_data 3).home.teamsheet).length ∧
    (((1 ≤ ((0 : Nat) : Int) + 1 ∧ ((0 : Nat) : Int) + 1 ≤ 8) →
      aget (((generate_sample_data 3).home.teamsheet).getD 0 []) "position" =
        some (PyVal.sc (Scalar.str "Forward"))) ∧
    ((9 ≤ ((0 : Nat) : Int) + 1 ∧ ((0 : Nat) : Int) + 1 ≤ 15) →
      aget (((generate_sample_data 3).home.teamsheet).getD 0 []) "position" =
        some (PyVal.sc (Scalar.str "Back"))) ∧
    (15 < ((0 : Nat) : Int) + 1 →
      aget (((generate_sample_data 3).home.teamsheet).getD 0 []) "position" =
        some (PyVal.sc (Scalar.str "Substitute"))) ∧
    (aget (((generate_sample_data 3).home.teamsheet).getD 0 []) "substitute" =
        some (PyVal.sc (Scalar.bool true)) ↔ 15 < ((0 : Nat) : Int) + 1)) :=
  ⟨by decide, position_and_substitute_ranges 3 0 (by decide)⟩

theorem compareLoops_flatdict_player_row (i : Int) :
    CompareLoops.flatdict_player (player_of i) = manual_row (player_of i) :=
  flatdict_player_row i

/-- C4 (code evaluated at the claim's scenario): running the full sweep
over input sizes [23, 100] does not produce an aggregated table at all —
`run_and_compare` evaluates `cp.deepcopy(data)` and the name `cp` is
unbound in main.py (the module does `import copy`, never
`import copy as cp`), so the sweep raises `NameError` at the first input
size, whatever the measurement readings are. -/
theorem full_sweep_raises_nameError (readings : String → Rat × Rat) :
    run_sweep [23, 100] readings = Except.error (PyError.nameError "cp") := by
  simp [run_sweep, run_and_compare, lookupGlobal, mainGlobals, reset_results]

/-- C5 counterexample: at `num_players = -1` (a negative integer count),
`generate_sample_data` does not fail: it returns a well-formed
`MatchRecord` with an empty home teamsheet. -/
theorem generate_neg_one_returns_record :
    generate_sample_data (-1) = emptyTeamsheetRecord := by decide

/-- C5 amended: for every integer `num_players < 0`,
`generate_sample_data` raises no invalid-argument condition; it returns
the `MatchRecord` with an empty home teamsheet. -/
theorem generate_negative_returns_empty_teamsheet (n : Int) (h : n < 0) :
    generate_sample_data n = emptyTeamsheetRecord := by
  have h0 : n.toNat = 0 := by omega
  simp [generate_sample_data, emptyTeamsheetRecord, pyRange1, h0]

/-- Witness for the amended C5 at `num_players = -1`. -/
theorem generate_negative_returns_empty_teamsheet_witness :
    (-1 : Int) < 0 ∧ generate_sample_data (-1) = emptyTeamsheetRecord :=
  ⟨by decide, generate_negative_returns_empty_teamsheet (-1) (by decide)⟩

/-- C6 counterexample: for the concrete record whose single player lacks
`match_stats`, `generator_flatten` returns no row at all for that player
(its comprehension filters the player out), contradicting the claim that
every candidate still produces a row for it. -/
theorem generator_flatten_drops_statless_player :
    statlessPlayer ∈ statlessRecord.home.teamsheet ∧
    generator_flatten statlessRecord = [] := by decide

/-- C6 amended: for an input record whose player lacks the nested
`match_stats` field, the candidates `manual_flatten` (stats read as an
empty mapping, emitting `None` for every stat key),
`unpack_operator_flatten`, `pandas_flatten`, `flatdict_flatten` and
`dlt_flatten` never raise and still produce a row for that player
containing the player's scalar fields; `generator_flatten` also never
raises, but instead of substituting an empty mapping it filters the
player out and produces no row for it. -/
theorem candidates_tolerate_missing_stats (a b c d : Scalar) :
    manual_flatten (scalarOnlyRecord a b c d) = [scalarPlayer a b c d ++ noneStats] ∧
    unpack_operator_flatten (scalarOnlyRecord a b c d) = [scalarPlayer a b c d] ∧
    pandas_flatten (scalarOnlyRecord a b c d) = [scalarPlayer a b c d] ∧
    (flatdict_flatten (scalarOnlyRecord a b c d)).1 = [scalarPlayer a b c d] ∧
    (dlt_flatten (scalarOnlyRecord a b c d)).1 = [scalarPlayer a b c d] ∧
    generator_flatten (scalarOnlyRecord a b c d) = [] := by
  refine ⟨?_, ?_, ?_, ?_, ?_, ?_⟩ <;>
    simp +decide [manual_flatten, manual_row, unpack_operator_flatten, unpack_row,
      pandas_flatten, json_normalize, nested_to_record, union_cols, isDictVal,
      flatdict_flatten, flatdict_player, dlt_flatten, dlt_player, generator_flatten,
      has_stats_dict, generator_row, scalarOnlyRecord, scalarPlayer, noneStats,
      stat_keys_list, msOrEmpty, pget, sgetN, aget, acontains, apop, aupdate, aset,
      withTeamsheet, FlatDictLib, flatten_dict, flatten_gen]

/-- C7: every invocation of a function wrapped by the `benchmark`
decorator appends exactly one `BenchmarkResult` to the shared results
collection, tagged with the wrapped function's identifying name; and the
reset `run_and_compare` performs at the start of each sweep yields an
empty collection before the sweep's first invocation. -/
theorem benchmark_appends_one_tagged_result (α β : Type) (funcName : String) (func : α → β)
    (reading : Rat × Rat) (a : α) (results : List BenchmarkResult) :
    (benchmark funcName func reading a results).2 =
      results ++ [{ function := funcName, time_in_s := reading.1,
                    memory_in_mb := reading.2 }] ∧
    reset_results results = [] :=
  ⟨rfl, rfl⟩

/-- C8: the `benchmark` wrapper returns exactly the value the wrapped
function returned, for every wrapped function and every input. -/
theorem benchmark_preserves_return_value (α β : Type) (funcName : String) (func : α → β)
    (reading : Rat × Rat) (a : α) (results : List BenchmarkResult) :
    (benchmark funcName func reading a results).1 = func a :=
  rfl

/-- C9: for the record generated with `num_players = 3`: player 3's
`match_stats` points value is `(3 % 3) * 5 = 0`, player 1's points value
is `(1 % 3) * 5 = 5`, and the flattened row for player 1, under each of
the six candidates, contains `points: 5` together with `player_id: 1`,
`position: Forward` and `substitute: false`. -/
theorem generated_three_players_points :
    aget (msOrEmpty (((generate_sample_data 3).home.teamsheet).getD 2 [])) "points" =
      some (Scalar.int ((3 % 3) * 5)) ∧
    (3 % 3) * 5 = 0 ∧
    aget (msOrEmpty (((generate_sample_data 3).home.teamsheet).getD 0 [])) "points" =
      some (Scalar.int ((1 % 3) * 5)) ∧
    (1 % 3) * 5 = 5 ∧
    rowHasPlayerOne ((manual_flatten (generate_sample_data 3)).getD 0 []) ∧
    rowHasPlayerOne ((unpack_operator_flatten (generate_sample_data 3)).getD 0 []) ∧
    rowHasPlayerOne ((generator_flatten (generate_sample_data 3)).getD 0 []) ∧
    rowHasPlayerOne ((pandas_flatten (generate_sample_data 3)).getD 0 []) ∧
    rowHasPlayerOne (((flatdict_flatten (generate_sample_data 3)).1).getD 0 []) ∧
    rowHasPlayerOne (((dlt_flatten (generate_sample_data 3)).1).getD 0 []) := by
  have hman : rowHasPlayerOne ((manual_flatten (generate_sample_data 3)).getD 0 []) := by
    unfold rowHasPlayerOne
    refine ⟨by decide, by decide, by decide, by decide⟩
  refine ⟨by decide, by decide, by decide, by decide, hman, ?_, ?_, ?_, ?_, ?_⟩
  · rw [unpack_eq_manual 3]
    exact hman
  · rw [generator_eq_manual 3]
    exact hman
  · rw [pandas_eq_manual 3]
    exact hman
  · rw [flatdict_rows_eq_manual 3]
    exact hman
  · rw [dlt_rows_eq_manual 3]
    exact hman

/-- The post-mutation shape required of a player by C10: the
`match_stats` key is gone and every stat key sits at the top level. -/
theorem manual_row_is_flat (i : Int) :
    (!acontains (manual_row (player_of i)) "match_stats" &&
      stat_keys_list.all (fun k => acontains (manual_row (player_of i)) k)) = true := by
  simp [manual_row, player_of, match_stats_of, msOrEmpty, pget, sgetN, aget, acontains,
    stat_keys_list]

/-- C10: the candidates that pop `match_stats` — `flatdict_flatten` of
main.py, `flatdict_flatten` of compare_loops.py and `dlt_flatten` —
destructively mutate their input in place: after one invocation, every
player dictionary in the input teamsheet no longer contains the
`match_stats` key and instead holds the stat keys at top level. -/
theorem pop_candidates_mutate_input (n : Int) :
    (((flatdict_flatten (generate_sample_data n)).2).home.teamsheet.all
      (fun p => !acontains p "match_stats" &&
        stat_keys_list.all (fun k => acontains p k)) = true) ∧
    (((CompareLoops.flatdict_flatten (generate_sample_data n)).2).home.teamsheet.all
      (fun p => !acontains p "match_stats" &&
        stat_keys_list.all (fun k => acontains p k)) = true) ∧
    (((dlt_flatten (generate_sample_data n)).2).home.teamsheet.all
      (fun p => !acontains p "match_stats" &&
        stat_keys_list.all (fun k => acontains p k)) = true) := by
  refine ⟨?_, ?_, ?_⟩
  · simp only [flatdict_flatten, withTeamsheet, generate_sample_data, List.all_eq_true]
    intro p hp
    obtain ⟨q, hq, rfl⟩ := List.mem_map.mp hp
    obtain ⟨i, _, rfl⟩ := List.mem_map.mp hq
    rw [flatdict_player_row i]
    exact manual_row_is_flat i
  · simp only [CompareLoops.flatdict_flatten, withTeamsheet, generate_sample_data,
      List.all_eq_true]
    intro p hp
    obtain ⟨q, hq, rfl⟩ := List.mem_map.mp hp
    obtain ⟨i, _, rfl⟩ := List.mem_map.mp hq
    rw [compareLoops_flatdict_player_row i]
    exact manual_row_is_flat i
  · simp only [dlt_flatten, withTeamsheet, generate_sample_data, List.all_eq_true]
    intro p hp
    obtain ⟨q, hq, rfl⟩ := List.mem_map.mp hp
    obtain ⟨i, _, rfl⟩ := List.mem_map.mp hq
    rw [dlt_player_row i]
    exact manual_row_is_flat i
